import Mathlib

/-!
Verification of the darkstar scan orchestrator and OpenVAS lifecycle monitor.

This file gives a shallow embedding, in Lean 4, of the parts of the darkstar
repository that the verified properties talk about:

* the report-ingestion pipeline `OpenVASScanner.parse_results_to_vulns`
  (src/darkstar/openvas/openvas_scanner.py, lines 227-335);
* the task-queue polling loop `OpenVASScanner.monitor_task_queue`
  (same file, lines 149-226);
* the aggressive-mode orchestration `AggressiveScanner.run`
  (src/darkstar/scanners/aggressive_scanner.py, lines 44-152), whose stage
  structure is identical to the mode-3 branch of `worker.run` in
  src/darkstar/main.py;
* the target parser `parse_targets` (src/darkstar/main.py, lines 499-512);
* the scanner factory `ScannerFactory.create_scanner`
  (src/darkstar/scanners/scanner_factory.py, lines 37-82).

Python dictionaries become Lean structures, exceptions become `Except`,
`asyncio.gather` (without `return_exceptions`) becomes a first-error
propagating combinator, and the unbounded polling loop is given explicit
fuel so that it is a total Lean function.
-/

namespace Darkstar

/-! ## String containment (Python's `needle in haystack`) -/

/-- `listIsPrefix n h` is true when `n` is a prefix of `h`. -/
def listIsPrefix : List Char → List Char → Bool
  | [], _ => true
  | _ :: _, [] => false
  | a :: as, b :: bs => a == b && listIsPrefix as bs

/-- `listIsInfix n h` is true when `n` occurs contiguously inside `h`. -/
def listIsInfix (needle : List Char) : List Char → Bool
  | [] => needle.isEmpty
  | c :: rest => listIsPrefix needle (c :: rest) || listIsInfix needle rest

/-- Python's substring test `sig in name`. -/
def strContains (hay sig : String) : Bool :=
  listIsInfix sig.toList hay.toList

/-- Python's `str.strip()`: drop whitespace from both ends. -/
def pyStrip (s : String) : String :=
  ⟨(((s.toList.dropWhile Char.isWhitespace).reverse.dropWhile
      Char.isWhitespace).reverse)⟩

/-- Split a character list on a separator; like the Python
`str.split(sep)`, adjacent separators and ends produce empty pieces. -/
def splitOnChar (sep : Char) : List Char → List (List Char)
  | [] => [[]]
  | c :: rest =>
    if c = sep then [] :: splitOnChar sep rest
    else
      match splitOnChar sep rest with
      | [] => [[c]]
      | h :: t => (c :: h) :: t

/-- Python's `s.split(sep)` for a single-character separator. -/
def pySplit (sep : Char) (s : String) : List String :=
  (splitOnChar sep s.toList).map (fun cs => ⟨cs⟩)

/-! ## Report ingestion pipeline (`OpenVASScanner.parse_results_to_vulns`) -/

/-- The `Vulnerability` record as it is constructed by
`parse_results_to_vulns` (openvas_scanner.py lines 297-324): the fields are
exactly the keyword arguments of the two constructor calls, with the fields a
given call omits left as `none`.  (The class itself lives in
`core/models/vulnerability.py`, outside the orchestration sources; its
observable shape here is the argument list each branch passes.) -/
structure Vulnerability where
  title : String
  affected_item : String
  tool : String
  confidence : Int
  severity : String
  host : String
  cve_number : Option String := none
  summary : Option String := none
  impact : Option String := none
  solution : Option String := none
  poc : Option String := none
  cvss : Option String := none
  epss : Option ℚ := none
  deriving Repr, DecidableEq

/-- One `<result>` element of an OpenVAS XML report, with the fields
`parse_results_to_vulns` reads.  `name = none` models the
`result.find('name').text` access raising (lines 250-253); `cve = none`
models the `nvt.find('cve').text` access raising (lines 264-268). -/
structure RawResult where
  name : Option String
  cve : Option String
  port : String
  threat : String
  severity : String
  description : String
  host : String
  qod_value : Int
  deriving Repr, DecidableEq

/-- Outcome of one EPSS scoring-feed query
(`requests.get(https://api.first.org/...)`, lines 283-291): either the
request raised (`failure`), or it returned a status code and a JSON `data`
array whose entries each carry an optional `percentile`. -/
inductive FeedResult where
  | failure : FeedResult
  | resp (statusCode : Nat) (data : List (Option ℚ)) : FeedResult
  deriving Repr, DecidableEq

/-- The enrichment block of lines 270-291: starting from the defaults
`exploit = False`, `epss = 0.0`, query the feed only for a real CVE; on a
200 response with non-empty data take the first entry's percentile
(defaulting to 0) and set `exploit` when it reaches 0.65. -/
def computeEpss (cve : String) (feed : String → FeedResult) : ℚ × Bool :=
  if cve ≠ "NOCVE" then
    match feed cve with
    | .failure => (0, false)
    | .resp statusCode data =>
      if statusCode = 200 then
        match data with
        | [] => (0, false)
        | e :: _ =>
          let epss := e.getD 0
          if epss ≥ (0.65 : ℚ) then (epss, true) else (epss, false)
      else (0, false)
  else (0, false)

/-- The false-positive denylist of lines 256-260. -/
def skipSigs : List String :=
  ["httpOnly", "Certificate Expired", "Weak Encryption",
   "Missing `secure`", "VNC Server Unencrypted",
   "Weak Cipher", "Vulnerable Cipher"]

/-- `any(skip in name for skip in [...])` (line 256). -/
def isFalsePositive (name : String) : Bool :=
  skipSigs.any (fun sig => strContains name sig)

/-- Per-finding outcome of the loop body (lines 249-329): the name lookup
raised (`skipNoName`, plain `continue`), the title hit the denylist
(`skipFP`, `skipped_count += 1`), or a record was built (`emit`), paired
with the `epss`/`exploit` values the loop body computed for the finding. -/
inductive ProcOutcome where
  | skipNoName : ProcOutcome
  | skipFP : ProcOutcome
  | emit (v : Vulnerability) (epss : ℚ) (exploit : Bool) : ProcOutcome
  deriving Repr, DecidableEq

/-- The body of the `for result in root.findall('.//result')` loop
(lines 249-329), for a single finding. -/
def processResult (feed : String → FeedResult) (r : RawResult) : ProcOutcome :=
  match r.name with
  | none => .skipNoName
  | some name =>
    if isFalsePositive name then .skipFP
    else
      let cve := r.cve.getD "NOCVE"
      let (epss, exploit) := computeEpss cve feed
      if cve ≠ "NOCVE" then
        .emit
          { title := name, affected_item := r.host, tool := "OpenVAS",
            confidence := r.qod_value, severity := r.severity, host := r.host,
            cve_number := some cve }
          epss exploit
      else
        .emit
          { title := name, affected_item := r.host, tool := "OpenVAS",
            confidence := r.qod_value, severity := r.severity, host := r.host,
            summary := some r.description, impact := some r.threat,
            solution := some "", poc := some r.description,
            cvss := some r.severity, epss := some epss }
          epss exploit

/-- The whole result loop: the records appended to `self.vulnerabilities`
in discovery order, together with `vulnerability_count` and
`skipped_count` (lines 245-329). -/
def parseReport (feed : String → FeedResult) :
    List RawResult → List Vulnerability × Nat × Nat
  | [] => ([], 0, 0)
  | r :: rest =>
    match processResult feed r with
    | .skipNoName => parseReport feed rest
    | .skipFP =>
      let (vs, c, s) := parseReport feed rest
      (vs, c, s + 1)
    | .emit v _ _ =>
      let (vs, c, s) := parseReport feed rest
      (v :: vs, c + 1, s)

/-- The insertion loop of lines 331-333: every record of the list is handed
to `insert_vulnerability_to_database` in order; the sink's boolean result
(src/darkstar/core/db_helper.py lines 14-32: it catches internally and
returns `False` on failure) is recorded but never inspected. -/
def forwardToSink (sink : Vulnerability → Bool) (vulns : List Vulnerability) :
    List (Vulnerability × Bool) :=
  vulns.map (fun v => (v, sink v))

/-- `parse_results_to_vulns` as a state transformer: `st` is the scanner's
`self.vulnerabilities` on entry; `report` is the parsed XML (`.error` models
an `ET.ParseError`, which returns before any insertion, lines 238-243).
Returns the new `self.vulnerabilities` and the sequence of sink calls made
(lines 326-333: new records are appended, then the WHOLE accumulated list is
inserted). -/
def parse_results_to_vulns (sink : Vulnerability → Bool)
    (feed : String → FeedResult) (st : List Vulnerability)
    (report : Except Unit (List RawResult)) :
    List Vulnerability × List (Vulnerability × Bool) :=
  match report with
  | .error _ => (st, [])
  | .ok findings =>
    let (newVulns, _, _) := parseReport feed findings
    let st' := st ++ newVulns
    (st', forwardToSink sink st')

/-! ## Task-queue monitor (`OpenVASScanner.monitor_task_queue`) -/

/-- OpenVAS task status strings as read from `status_resp.get("status")`
(lines 184-220).  `other` stands for any string outside the two terminal
groups (e.g. `"Running"`, `"Requested"`, `"Unknown"`). -/
inductive Status where
  | Done : Status
  | Stopped : Status
  | Failed : Status
  | Interrupted : Status
  | Running : Status
  | Requested : Status
  | Unknown : Status
  deriving Repr, DecidableEq

/-- One entry of the `task_info` list handed to `monitor_task_queue`
(openvas_scanner.py lines 129-134). -/
structure TaskInfo where
  task_id : String
  task_name : String
  report_id : Option String
  completed : Bool
  deriving Repr, DecidableEq

/-- The remote service as seen by the monitor: the status returned by
`get_task_status` at a given polling iteration for a given task id
(`.error` models the call raising, line 224), and the body returned by
`get_report` for a report id (`.error` models the fetch raising,
line 213). -/
structure MonitorEnv where
  status : Nat → String → Except Unit Status
  report : String → Except Unit String

/-- Observable actions of one monitor run, in the order they happen. -/
inductive MEvent where
  | statusPoll (taskId : String) : MEvent
  | fetchReport (reportId : String) : MEvent
  | ingest (body : String) : MEvent
  | setCompleted (taskId : String) : MEvent
  deriving Repr, DecidableEq

/-- The body of the `for task in task_info` loop (lines 178-225), for one
task at polling iteration `i`: completed tasks are skipped outright
(line 179); otherwise the status is polled and handled.  On
`Done`/`Stopped` with a report id, the report is fetched; a non-empty body
(Python's `report_xml and len(report_xml.strip()) > 0`, equivalent to the
stripped body being non-empty) is ingested; in every sub-case — non-empty
body, empty body, fetch exception, missing report id — `completed` is set.
On `Failed`/`Interrupted`, `completed` is set with no fetch.  Any other
status, or a status-poll exception, leaves the task unchanged. -/
def stepTask (env : MonitorEnv) (i : Nat) (t : TaskInfo) :
    TaskInfo × List MEvent :=
  if t.completed then (t, [])
  else
    match env.status i t.task_id with
    | .error _ => (t, [.statusPoll t.task_id])
    | .ok st =>
      match st with
      | .Done | .Stopped =>
        match t.report_id with
        | some rid =>
          match env.report rid with
          | .ok body =>
            if pyStrip body ≠ "" then
              ({ t with completed := true },
               [.statusPoll t.task_id, .fetchReport rid, .ingest body,
                .setCompleted t.task_id])
            else
              ({ t with completed := true },
               [.statusPoll t.task_id, .fetchReport rid,
                .setCompleted t.task_id])
          | .error _ =>
            ({ t with completed := true },
             [.statusPoll t.task_id, .fetchReport rid,
              .setCompleted t.task_id])
        | none =>
          ({ t with completed := true },
           [.statusPoll t.task_id, .setCompleted t.task_id])
      | .Failed | .Interrupted =>
        ({ t with completed := true },
         [.statusPoll t.task_id, .setCompleted t.task_id])
      | _ => (t, [.statusPoll t.task_id])

/-- One full pass of the `for task in task_info` loop at iteration `i`. -/
def pollAll (env : MonitorEnv) (i : Nat) :
    List TaskInfo → List TaskInfo × List MEvent
  | [] => ([], [])
  | t :: ts =>
    ((stepTask env i t).1 :: (pollAll env i ts).1,
     (stepTask env i t).2 ++ (pollAll env i ts).2)

/-- The `while True` loop of lines 164-225, with explicit `fuel` standing
for the number of sleep intervals the run is observed for (the source loop
is unbounded).  Each iteration sleeps, then breaks if every task is
completed (lines 168-173), else polls every incomplete task.  `none` means
the observation window ended before the loop broke. -/
def monitorLoop (env : MonitorEnv) :
    Nat → Nat → List TaskInfo → Option (List TaskInfo) × List MEvent
  | 0, _, _ => (none, [])
  | fuel + 1, i, tasks =>
    if tasks.all (fun t => t.completed) then (some tasks, [])
    else
      ((monitorLoop env fuel (i + 1) (pollAll env i tasks).1).1,
       (pollAll env i tasks).2 ++
         (monitorLoop env fuel (i + 1) (pollAll env i tasks).1).2)

/-! ## Aggressive-mode orchestration (`AggressiveScanner.run`) -/

/-- The value returned by the bbot stage-1 job (aggressive_scanner.py
lines 92-105): the scanner handle is opaque here, the subdomains artifact
path is what stage 2 consumes. -/
structure BBotRes where
  subdomains_file : String
  deriving Repr, DecidableEq

/-- The dict returned by `AggressiveScanner.run` (lines 148-152). -/
structure AggResult where
  port_results : String
  bbot_results : BBotRes
  wordpress_domains : List String
  deriving Repr, DecidableEq

/-- `asyncio.gather(a, b)` with the default `return_exceptions=False`: if
either awaited job raised, the exception propagates out of the `await`
(the model resolves simultaneous failures to the first argument). -/
def gather2 {α β : Type} (a : Except String α) (b : Except String β) :
    Except String (α × β) :=
  match a, b with
  | .error e, _ => .error e
  | .ok _, .error e => .error e
  | .ok x, .ok y => .ok (x, y)

/-- `AggressiveScanner.run` (lines 44-152), with each launched job given by
its outcome: stage 1 gathers port discovery and the bbot scan (line 111,
`asyncio.gather` without `return_exceptions`); stage 2 gathers the nuclei
scan and WordPress detection over the bbot subdomains artifact (line 146),
the latter's result becoming `wordpress_domains`.  The mode-3 branch of
`worker.run` (main.py lines 107-242) has the same stage structure. -/
def aggressiveRun (port : Except String String) (bbot : Except String BBotRes)
    (nuclei : String → Except String Unit)
    (wp : String → Except String (List String)) : Except String AggResult :=
  match gather2 port bbot with
  | .error e => .error e
  | .ok (pr, br) =>
    match gather2 (nuclei br.subdomains_file) (wp br.subdomains_file) with
    | .error e => .error e
    | .ok (_, doms) =>
      .ok { port_results := pr, bbot_results := br, wordpress_domains := doms }

/-! ## Target parsing (`parse_targets`) -/

/-- Target kinds of the classification pass. -/
inductive TargetKind where
  | domain : TargetKind
  | ipv4 : TargetKind
  | cidr : TargetKind
  deriving Repr, DecidableEq

/-- A dotted-quad: four dot-separated, non-empty, all-digit components. -/
def isDottedQuad (s : String) : Bool :=
  let parts := pySplit '.' s
  parts.length = 4 &&
    parts.all (fun p => p ≠ "" && p.toList.all Char.isDigit)

/-- Modelled from the spec: `categorize_targets` lives in
`core/utils.py`, which is not among the orchestration sources; §4.1 of the
design says classification "uses structural pattern checks (dotted-quad
with optional prefix length ⇒ cidr/ipv4; otherwise ⇒ domain)" and is purely
syntactic. -/
def classifyTarget (s : String) : TargetKind :=
  match pySplit '/' s with
  | [addr, pfx] =>
    if isDottedQuad addr && pfx ≠ "" && pfx.toList.all Char.isDigit then
      .cidr
    else .domain
  | [addr] => if isDottedQuad addr then .ipv4 else .domain
  | _ => .domain

/-- Log levels distinguished by the claim (warning vs. error). -/
inductive LogLevel where
  | warning : LogLevel
  | error : LogLevel
  deriving Repr, DecidableEq

/-- `parse_targets` (main.py lines 499-512): split the raw string on commas,
strip each entry, drop entries that strip to empty; if nothing is left, log
a warning and return an empty result, otherwise classify every kept entry
(the categorize/DataFrame steps, modelled as the entry/kind pairs). -/
def parse_targets (targets_str : String) :
    List (String × TargetKind) × Option LogLevel :=
  let targets := ((pySplit ',' targets_str).map pyStrip).filter
    (fun t => t ≠ "")
  if targets.isEmpty then ([], some .warning)
  else (targets.map (fun t => (t, classifyTarget t)), none)

/-! ## Scanner factory (`ScannerFactory.create_scanner`) -/

/-- The scanner classes the factory can instantiate
(scanner_factory.py lines 60-66). -/
inductive ScannerInstance where
  | passive : ScannerInstance
  | normal : ScannerInstance
  | aggressive : ScannerInstance
  | attackSurface : ScannerInstance
  | openvas : ScannerInstance
  deriving Repr, DecidableEq

/-- `ScannerFactory.create_scanner` (lines 37-82): `scanner_map.get(mode)`
followed by `if not scanner_class: return None`; modes 1-5 each map to a
scanner instance, everything else to `None`. -/
def create_scanner (mode : Int) : Option ScannerInstance :=
  if mode = 1 then some .passive
  else if mode = 2 then some .normal
  else if mode = 3 then some .aggressive
  else if mode = 4 then some .attackSurface
  else if mode = 5 then some .openvas
  else none

/-! ## Sample data used by witnesses and counterexamples -/

/-- A record retained in `self.vulnerabilities` from an earlier ingestion
call. -/
def sampleVuln : Vulnerability :=
  { title := "earlier finding", affected_item := "10.0.0.9", tool := "OpenVAS",
    confidence := 80, severity := "5.0", host := "10.0.0.9" }

/-- A CVE-less finding. -/
def sampleResult : RawResult :=
  { name := some "Fresh finding", cve := some "NOCVE", port := "80/tcp",
    threat := "High", severity := "7.5", description := "desc",
    host := "10.0.0.1", qod_value := 80 }

/-- A finding carrying a real CVE. -/
def cveResult : RawResult :=
  { name := some "Remote code execution", cve := some "CVE-2023-0001",
    port := "443/tcp", threat := "High", severity := "9.8",
    description := "d", host := "10.0.0.2", qod_value := 97 }

/-- An environment whose remote tasks never leave the Running status. -/
def idleEnv : MonitorEnv :=
  { status := fun _ _ => .ok .Running, report := fun _ => .ok "" }

/-- An environment whose remote tasks report the Failed status. -/
def failEnv : MonitorEnv :=
  { status := fun _ _ => .ok .Failed, report := fun _ => .ok "body" }

/-- An environment where a task polls Running at iterations 1 and 2 and Done
from iteration 3 on, and every report fetch returns `body`. -/
def rrdEnv (body : String) : MonitorEnv :=
  { status := fun i _ => .ok (if 3 ≤ i then .Done else .Running),
    report := fun _ => .ok body }

/-- Event selector: report fetches. -/
def isFetchEvent : MEvent → Bool
  | .fetchReport _ => true
  | _ => false

/-- Event selector: ingestion calls. -/
def isIngestEvent : MEvent → Bool
  | .ingest _ => true
  | _ => false

/-- Event selector: settings of the completed flag. -/
def isCompletionEvent : MEvent → Bool
  | .setCompleted _ => true
  | _ => false

/-! ## Theorems -/

/-- C9: for every integer mode, `create_scanner` returns a scanner instance
exactly when the mode is one of 1, 2, 3, 4, 5, and returns `none` (never
raising — the function is total) for every other value. -/
theorem create_scanner_mode_range (m : Int) :
    (create_scanner m).isSome = true ↔
      (m = 1 ∨ m = 2 ∨ m = 3 ∨ m = 4 ∨ m = 5) := by
  unfold create_scanner
  split_ifs with h1 h2 h3 h4 h5 <;> simp_all

/-- C7: a finding whose title contains any denylist signature is skipped
before record creation, and a report whose single finding is titled
"Weak Cipher Suites Supported" yields zero records with the
skipped-false-positive counter at one. -/
theorem falsePositive_excluded (feed : String → FeedResult) (r : RawResult)
    (n : String) :
    (r.name = some n → isFalsePositive n = true →
      processResult feed r = .skipFP) ∧
    (r.name = some "Weak Cipher Suites Supported" →
      parseReport feed [r] = ([], 0, 1)) := by
  constructor
  · intro hn hfp
    unfold processResult
    rw [hn]
    simp [hfp]
  · intro hn
    have hskip : processResult feed r = .skipFP := by
      unfold processResult
      rw [hn]
      have : isFalsePositive "Weak Cipher Suites Supported" = true := by decide
      simp [this]
    simp [parseReport, hskip]

/-- Closed witness for `falsePositive_excluded`. -/
theorem falsePositive_excluded_witness :
    processResult (fun _ => .failure)
      { sampleResult with name := some "Weak Cipher Suites Supported" } =
        .skipFP ∧
    parseReport (fun _ => .failure)
      [{ sampleResult with name := some "Weak Cipher Suites Supported" }] =
        ([], 0, 1) :=
  ⟨(falsePositive_excluded (fun _ => .failure) _ "Weak Cipher Suites Supported").1
      rfl (by decide),
   (falsePositive_excluded (fun _ => .failure) _ "Weak Cipher Suites Supported").2
      rfl⟩

/-- C4: for a finding with a real CVE, a successful scoring-feed response
with percentile 0.80 makes the computed enrichment exploitable, percentile
0.40 leaves it not exploitable, and any feed failure leaves the score at
its default 0 and not exploitable. -/
theorem epss_threshold (r : RawResult) (n c : String)
    (hn : r.name = some n) (hfp : isFalsePositive n = false)
    (hc : r.cve = some c) (hne : c ≠ "NOCVE") :
    (∃ v, processResult (fun _ => .resp 200 [some (0.80 : ℚ)]) r =
      .emit v (0.80 : ℚ) true) ∧
    (∃ v, processResult (fun _ => .resp 200 [some (0.40 : ℚ)]) r =
      .emit v (0.40 : ℚ) false) ∧
    (∀ feed, feed c = .failure → ∃ v, processResult feed r = .emit v 0 false) := by
  have key : ∀ feed : String → FeedResult,
      processResult feed r =
        .emit { title := n, affected_item := r.host, tool := "OpenVAS",
                confidence := r.qod_value, severity := r.severity,
                host := r.host, cve_number := some c }
          (computeEpss c feed).1 (computeEpss c feed).2 := by
    intro feed
    unfold processResult
    rw [hn]
    simp only [hfp, Bool.false_eq_true, if_false, hc, Option.getD_some]
    simp [hne]
  have h08 : computeEpss c (fun _ => .resp 200 [some (0.80 : ℚ)]) =
      ((0.80 : ℚ), true) := by
    unfold computeEpss
    simp [hne]
    norm_num
  have h04 : computeEpss c (fun _ => .resp 200 [some (0.40 : ℚ)]) =
      ((0.40 : ℚ), false) := by
    unfold computeEpss
    simp [hne]
    norm_num
  refine ⟨?_, ?_, ?_⟩
  · have h := key (fun _ => .resp 200 [some (0.80 : ℚ)])
    rw [h08] at h
    exact ⟨_, h⟩
  · have h := key (fun _ => .resp 200 [some (0.40 : ℚ)])
    rw [h04] at h
    exact ⟨_, h⟩
  · intro feed hf
    have h0 : computeEpss c feed = (0, false) := by
      unfold computeEpss
      simp [hne, hf]
    have h := key feed
    rw [h0] at h
    exact ⟨_, h⟩

/-- Closed witness for `epss_threshold`. -/
theorem epss_threshold_witness :
    (∃ v, processResult (fun _ => .resp 200 [some (0.80 : ℚ)]) cveResult =
      .emit v (0.80 : ℚ) true) ∧
    (∃ v, processResult (fun _ => .resp 200 [some (0.40 : ℚ)]) cveResult =
      .emit v (0.40 : ℚ) false) ∧
    (∀ feed, feed "CVE-2023-0001" = .failure →
      ∃ v, processResult feed cveResult = .emit v 0 false) :=
  epss_threshold cveResult "Remote code execution" "CVE-2023-0001"
    rfl (by decide) rfl (by decide)

/-- C6: the shape of an emitted record is a pure function of CVE presence.
A NOCVE finding yields a record carrying the summary, impact and
proof-of-concept fields plus the computed exploit score; a finding with a
real CVE yields a record holding only the common fields plus the CVE, with
every extra field left empty. -/
theorem record_shape (r : RawResult) (n : String) (feed : String → FeedResult)
    (hn : r.name = some n) (hfp : isFalsePositive n = false) :
    (r.cve.getD "NOCVE" = "NOCVE" →
      ∃ ep ex, processResult feed r = .emit
        { title := n, affected_item := r.host, tool := "OpenVAS",
          confidence := r.qod_value, severity := r.severity, host := r.host,
          summary := some r.description, impact := some r.threat,
          solution := some "", poc := some r.description,
          cvss := some r.severity, epss := some ep } ep ex) ∧
    (∀ c, r.cve = some c → c ≠ "NOCVE" →
      ∃ ep ex, processResult feed r = .emit
        { title := n, affected_item := r.host, tool := "OpenVAS",
          confidence := r.qod_value, severity := r.severity, host := r.host,
          cve_number := some c } ep ex) := by
  constructor
  · intro hc
    have hcomp : computeEpss "NOCVE" feed = (0, false) := by
      unfold computeEpss
      simp
    refine ⟨0, false, ?_⟩
    unfold processResult
    rw [hn]
    simp only [hfp, Bool.false_eq_true, if_false, hc, hcomp]
    simp
  · intro c hc hne
    refine ⟨(computeEpss c feed).1, (computeEpss c feed).2, ?_⟩
    unfold processResult
    rw [hn]
    simp only [hfp, Bool.false_eq_true, if_false, hc, Option.getD_some]
    simp [hne]

/-- Closed witness for `record_shape`. -/
theorem record_shape_witness :
    (∃ ep ex, processResult (fun _ => .failure) sampleResult = .emit
      { title := "Fresh finding", affected_item := sampleResult.host,
        tool := "OpenVAS", confidence := sampleResult.qod_value,
        severity := sampleResult.severity, host := sampleResult.host,
        summary := some sampleResult.description,
        impact := some sampleResult.threat, solution := some "",
        poc := some sampleResult.description,
        cvss := some sampleResult.severity, epss := some ep } ep ex) ∧
    (∃ ep ex, processResult (fun _ => .failure) cveResult = .emit
      { title := "Remote code execution", affected_item := cveResult.host,
        tool := "OpenVAS", confidence := cveResult.qod_value,
        severity := cveResult.severity, host := cveResult.host,
        cve_number := some "CVE-2023-0001" } ep ex) :=
  ⟨(record_shape sampleResult "Fresh finding" (fun _ => .failure) rfl
      (by decide)).1 (by decide),
   (record_shape cveResult "Remote code execution" (fun _ => .failure) rfl
      (by decide)).2 "CVE-2023-0001" rfl (by decide)⟩

/-- C5 counterexample: a second ingestion call does not forward exactly the
records parsed from its own report.  With one record retained from an
earlier call, a report parsing to a single fresh record produces two sink
calls, while the report itself contributed only one record. -/
theorem sink_receives_stale_records :
    ((parse_results_to_vulns (fun _ => true) (fun _ => .failure)
        [sampleVuln] (.ok [sampleResult])).2).length = 2 ∧
    (parseReport (fun _ => .failure) [sampleResult]).1.length = 1 := by
  constructor <;> rfl

/-- C5 amended: each ingestion call forwards the scanner's entire
accumulated record list — the records parsed from this report appended, in
discovery order, after every record retained from earlier calls — one sink
call per record, and the calls made are independent of the sink's
success/failure results; an XML parse error forwards nothing. -/
theorem sink_receives_accumulated_records (sink : Vulnerability → Bool)
    (feed : String → FeedResult) (st : List Vulnerability)
    (findings : List RawResult) :
    (parse_results_to_vulns sink feed st (.ok findings)).1 =
      st ++ (parseReport feed findings).1 ∧
    ((parse_results_to_vulns sink feed st (.ok findings)).2).map Prod.fst =
      st ++ (parseReport feed findings).1 ∧
    (parse_results_to_vulns sink feed st (.error ())).2 = [] := by
  unfold parse_results_to_vulns forwardToSink
  simp
  have hid : (Prod.fst ∘ fun v : Vulnerability => (v, sink v)) = id := rfl
  rw [hid, List.map_id, List.map_id]

/-- C1 counterexample: an aggressive-mode run in which exactly one launched
job (port discovery) raises does not return an aggregate result — the
exception propagates out of the run call. -/
theorem aggressive_failure_escapes :
    aggressiveRun (.error "rustscan exception") (.ok ⟨"/tmp/subs.txt"⟩)
      (fun _ => .ok ()) (fun _ => .ok []) = .error "rustscan exception" := rfl

/-- C1 amended: whenever exactly one launched job of an aggressive-mode run
raises, `asyncio.gather` (used without exception capture) re-raises it:
the run call yields that job's exception and no aggregate result marking
per-job Succeeded/Failed slots is produced. -/
theorem aggressive_single_failure_propagates (e pr : String) (br : BBotRes)
    (nuclei : String → Except String Unit)
    (wp : String → Except String (List String)) :
    aggressiveRun (.error e) (.ok br) nuclei wp = .error e ∧
    aggressiveRun (.ok pr) (.error e) nuclei wp = .error e ∧
    (nuclei br.subdomains_file = .error e →
      aggressiveRun (.ok pr) (.ok br) nuclei wp = .error e) ∧
    (∀ u, nuclei br.subdomains_file = .ok u →
      wp br.subdomains_file = .error e →
      aggressiveRun (.ok pr) (.ok br) nuclei wp = .error e) := by
  refine ⟨rfl, rfl, ?_, ?_⟩
  · intro hn
    simp [aggressiveRun, gather2, hn]
  · intro u hn hw
    simp [aggressiveRun, gather2, hn, hw]

/-- Closed witness for `aggressive_single_failure_propagates`. -/
theorem aggressive_single_failure_propagates_witness :
    aggressiveRun (.ok "ports") (.ok ⟨"/tmp/subs.txt"⟩)
      (fun _ => .error "nuclei exception") (fun _ => .ok []) =
      .error "nuclei exception" ∧
    aggressiveRun (.ok "ports") (.ok ⟨"/tmp/subs.txt"⟩)
      (fun _ => .ok ()) (fun _ => .error "wordpress exception") =
      .error "wordpress exception" :=
  ⟨(aggressive_single_failure_propagates "nuclei exception" "ports"
      ⟨"/tmp/subs.txt"⟩ (fun _ => .error "nuclei exception")
      (fun _ => .ok [])).2.2.1 rfl,
   (aggressive_single_failure_propagates "wordpress exception" "ports"
      ⟨"/tmp/subs.txt"⟩ (fun _ => .ok ())
      (fun _ => .error "wordpress exception")).2.2.2 () rfl rfl⟩

/-- C3: a task polled in the Failed or Interrupted status is marked
completed at once with no report fetch, and a task whose completed flag is
already true is neither polled nor mutated by any monitor iteration. -/
theorem terminal_failure_no_fetch (env : MonitorEnv) (i : Nat) (t : TaskInfo) :
    (t.completed = true → stepTask env i t = (t, [])) ∧
    (∀ st, t.completed = false → env.status i t.task_id = .ok st →
      (st = .Failed ∨ st = .Interrupted) →
      stepTask env i t =
        ({ t with completed := true },
         [.statusPoll t.task_id, .setCompleted t.task_id]) ∧
      ∀ rid, MEvent.fetchReport rid ∉ (stepTask env i t).2) := by
  constructor
  · intro h
    unfold stepTask
    simp [h]
  · intro st hc hs hterm
    have heq : stepTask env i t =
        ({ t with completed := true },
         [.statusPoll t.task_id, .setCompleted t.task_id]) := by
      rcases hterm with h | h <;> subst h <;>
        · unfold stepTask
          simp [hc, hs]
    refine ⟨heq, ?_⟩
    intro rid
    rw [heq]
    simp

/-- Closed witness for `terminal_failure_no_fetch`. -/
theorem terminal_failure_no_fetch_witness :
    stepTask failEnv 7 ⟨"t2", "scan two", some "r2", true⟩ =
      (⟨"t2", "scan two", some "r2", true⟩, []) ∧
    stepTask failEnv 1 ⟨"t1", "scan one", some "r1", false⟩ =
      (⟨"t1", "scan one", some "r1", true⟩,
       [.statusPoll "t1", .setCompleted "t1"]) :=
  ⟨(terminal_failure_no_fetch failEnv 7 ⟨"t2", "scan two", some "r2", true⟩).1
      rfl,
   ((terminal_failure_no_fetch failEnv 1
      ⟨"t1", "scan one", some "r1", false⟩).2 .Failed rfl rfl (Or.inl rfl)).1⟩

/-- Helper: whenever the polling loop breaks within its observation window,
every tracked task has its completed flag set. -/
theorem monitorLoop_some_completed (env : MonitorEnv) :
    ∀ (fuel i : Nat) (tasks res : List TaskInfo) (tr : List MEvent),
      monitorLoop env fuel i tasks = (some res, tr) →
      res.all (fun t => t.completed) = true := by
  intro fuel
  induction fuel with
  | zero =>
    intro i tasks res tr h
    simp [monitorLoop] at h
  | succ m ih =>
    intro i tasks res tr h
    unfold monitorLoop at h
    by_cases hall : tasks.all (fun t => t.completed) = true
    · rw [if_pos hall] at h
      obtain ⟨h1, -⟩ := Prod.mk.injEq .. ▸ h
      cases h1
      exact hall
    · rw [if_neg hall] at h
      have h1 : (monitorLoop env m (i + 1) (pollAll env i tasks).1).1 =
          some res := congrArg Prod.fst h
      exact ih (i + 1) (pollAll env i tasks).1 res
        (monitorLoop env m (i + 1) (pollAll env i tasks).1).2
        (by rw [← h1])

/-- C10: a monitor started on an empty task list breaks out of its polling
loop at the first interval; in general the loop breaks exactly when every
tracked task has completed = true — immediately once they all do, and any
break implies they all do. -/
theorem monitor_exit_condition (env : MonitorEnv) :
    monitorLoop env 1 1 [] = (some [], []) ∧
    (∀ fuel i tasks res tr, monitorLoop env fuel i tasks = (some res, tr) →
      res.all (fun t => t.completed) = true) ∧
    (∀ fuel i tasks, 1 ≤ fuel → tasks.all (fun t => t.completed) = true →
      monitorLoop env fuel i tasks = (some tasks, [])) := by
  refine ⟨rfl, monitorLoop_some_completed env, ?_⟩
  intro fuel i tasks hf hall
  match fuel, hf with
  | m + 1, _ =>
    unfold monitorLoop
    rw [if_pos hall]

/-- Closed witness for `monitor_exit_condition`. -/
theorem monitor_exit_condition_witness :
    monitorLoop idleEnv 1 1 [] = (some [], []) ∧
    ([⟨"t9", "scan nine", none, true⟩] :
        List TaskInfo).all (fun t => t.completed) = true ∧
    monitorLoop idleEnv 3 1 [⟨"t9", "scan nine", none, true⟩] =
      (some [⟨"t9", "scan nine", none, true⟩], []) :=
  ⟨(monitor_exit_condition idleEnv).1, rfl,
   (monitor_exit_condition idleEnv).2.2 3 1 [⟨"t9", "scan nine", none, true⟩]
      (by norm_num) rfl⟩

/-- C2: a task whose polled statuses are Running, Running, Done (with a
report id captured at start) triggers exactly one report fetch and exactly
one setting of the completed flag; with an empty or whitespace-only report
body no ingestion happens (zero records emitted) yet the task still
completes and the loop breaks. -/
theorem monitor_done_single_fetch (tid tname rid body : String) :
    (monitorLoop (rrdEnv body) 4 1 [⟨tid, tname, some rid, false⟩]).1 =
      some [⟨tid, tname, some rid, true⟩] ∧
    ((monitorLoop (rrdEnv body) 4 1 [⟨tid, tname, some rid, false⟩]).2.filter
      isFetchEvent).length = 1 ∧
    ((monitorLoop (rrdEnv body) 4 1 [⟨tid, tname, some rid, false⟩]).2.filter
      isCompletionEvent).length = 1 ∧
    (pyStrip body = "" →
      (monitorLoop (rrdEnv body) 4 1 [⟨tid, tname, some rid, false⟩]).2.filter
        isIngestEvent = []) := by
  by_cases hb : pyStrip body = "" <;>
    simp [monitorLoop, pollAll, stepTask, rrdEnv, hb,
      isFetchEvent, isCompletionEvent, isIngestEvent]

/-- Closed witness for `monitor_done_single_fetch`. -/
theorem monitor_done_single_fetch_witness :
    (monitorLoop (rrdEnv "") 4 1 [⟨"t1", "scan", some "r1", false⟩]).2.filter
      isIngestEvent = [] ∧
    ((monitorLoop (rrdEnv "<xml/>") 4 1
      [⟨"t1", "scan", some "r1", false⟩]).2.filter isFetchEvent).length = 1 :=
  ⟨(monitor_done_single_fetch "t1" "scan" "r1" "").2.2.2 (by decide),
   (monitor_done_single_fetch "t1" "scan" "r1" "<xml/>").2.1⟩

/-- C8: a target string all of whose comma-separated entries strip to
empty yields an empty result set with a warning (not an error) logged, and
every entry with non-empty stripped form is kept and classified. -/
theorem parse_targets_empty_or_kept (s : String) :
    ((pySplit ',' s).all (fun t => pyStrip t = "") = true →
      parse_targets s = ([], some .warning)) ∧
    (∀ t, t ∈ pySplit ',' s → pyStrip t ≠ "" →
      (pyStrip t, classifyTarget (pyStrip t)) ∈ (parse_targets s).1) := by
  constructor
  · intro h
    unfold parse_targets
    have hfil : ((pySplit ',' s).map pyStrip).filter (fun t => t ≠ "") = [] := by
      rw [List.filter_eq_nil_iff]
      intro a ha
      rw [List.mem_map] at ha
      obtain ⟨t, ht, rfl⟩ := ha
      have := List.all_eq_true.mp h t ht
      simpa using this
    rw [hfil]
    rfl
  · intro t ht htn
    unfold parse_targets
    have hmem : pyStrip t ∈
        ((pySplit ',' s).map pyStrip).filter (fun t => t ≠ "") := by
      rw [List.mem_filter]
      exact ⟨List.mem_map_of_mem _ ht, by simpa using htn⟩
    have hne : (((pySplit ',' s).map pyStrip).filter
        (fun t => t ≠ "")).isEmpty = false := by
      cases hl : ((pySplit ',' s).map pyStrip).filter (fun t => t ≠ "") with
      | nil => rw [hl] at hmem; cases hmem
      | cons a as => rfl
    simp only [hne, Bool.false_eq_true, if_false]
    exact List.mem_map_of_mem _ hmem

/-- Closed witness for `parse_targets_empty_or_kept`. -/
theorem parse_targets_empty_or_kept_witness :
    parse_targets " , ," = ([], some .warning) ∧
    (pyStrip "7.7.7.7", classifyTarget (pyStrip "7.7.7.7")) ∈
      (parse_targets "7.7.7.7,x").1 :=
  ⟨(parse_targets_empty_or_kept " , ,").1 (by decide),
   (parse_targets_empty_or_kept "7.7.7.7,x").2 "7.7.7.7" (by decide)
      (by decide)⟩

end Darkstar
